import Mathlib

/-!
Verification of the slang-rs bridging layer.

This file gives a shallow embedding of the Rust sources (`src/lib.rs`,
`src/utils.rs`) of the slang-rs crate: a safe wrapper around the slang
compiler's reference-counted, vtable-dispatched native object protocol.

Modelling conventions:
* `sys::SlangResult` (a signed 32-bit status code) is modelled as `Int`;
  the only operations the code performs on it are comparisons with 0.
* Raw pointers are modelled as natural-number addresses, with `0` as the
  null pointer.  Each `define_interface!` wrapper type becomes a one-field
  structure around such an address.
* Calls into the native library are modelled by a `NativeEnv` record of
  response functions (one per vtable slot the code invokes), and — where a
  claim is about which native calls happen — by explicit `NativeCall`
  traces.  Dereferencing an unallocated (in particular null) pointer is
  modelled as `Option.none` (undefined behaviour).
* Reference counting of blobs is modelled by a `Heap` mapping addresses to
  blob objects carrying their byte content and reference count.
-/

namespace SlangRs

/-- `sys::SlangResult`: the native signed 32-bit status code. -/
abbrev SlangResult := Int

/-- Raw native pointers, modelled as addresses; `0` is the null pointer. -/
abbrev Ptr := Nat

/-- The null pointer. -/
def nullPtr : Ptr := 0

/-- `Blob(*mut sys::slang_IBlob)` from `define_interface!(Blob, ..., Debug)`:
a newtype around the raw interface pointer. -/
structure Blob where
  raw : Ptr
deriving DecidableEq, Repr

/-- `GlobalSession(*mut sys::slang_IGlobalSession)`. -/
structure GlobalSession where
  raw : Ptr
deriving DecidableEq, Repr

/-- `Session(*mut sys::slang_ISession)`. -/
structure Session where
  raw : Ptr
deriving DecidableEq, Repr

/-- `Metadata(*mut sys::slang_IMetadata)`. -/
structure Metadata where
  raw : Ptr
deriving DecidableEq, Repr

/-- `ProgramLayout(*mut sys::slang_ProgramLayout)`. -/
structure ProgramLayout where
  raw : Ptr
deriving DecidableEq, Repr

/-- `ComponentType(*mut sys::slang_IComponentType)`. -/
structure ComponentType where
  raw : Ptr
deriving DecidableEq, Repr

/-- `EntryPoint(*mut sys::slang_IEntryPoint)`, whose vtable extends
`ComponentType`'s. -/
structure EntryPoint where
  raw : Ptr
deriving DecidableEq, Repr

/-- `TypeConformance(*mut sys::slang_ITypeConformance)`, whose vtable extends
`ComponentType`'s. -/
structure TypeConformance where
  raw : Ptr
deriving DecidableEq, Repr

/-- `Module(*mut sys::slang_IModule)`, whose vtable extends
`ComponentType`'s. -/
structure Module where
  raw : Ptr
deriving DecidableEq, Repr

/-- `pub fn as_raw(&self)` from `define_interface!`. -/
def Blob.as_raw (x : Blob) : Ptr := x.raw

/-- `pub fn as_raw(&self)` from `define_interface!`. -/
def GlobalSession.as_raw (x : GlobalSession) : Ptr := x.raw

/-- `pub fn as_raw(&self)` from `define_interface!`. -/
def Session.as_raw (x : Session) : Ptr := x.raw

/-- `pub fn as_raw(&self)` from `define_interface!`. -/
def Metadata.as_raw (x : Metadata) : Ptr := x.raw

/-- `pub fn as_raw(&self)` from `define_interface!`. -/
def ProgramLayout.as_raw (x : ProgramLayout) : Ptr := x.raw

/-- `pub fn as_raw(&self)` from `define_interface!`. -/
def ComponentType.as_raw (x : ComponentType) : Ptr := x.raw

/-- `pub fn as_raw(&self)` from `define_interface!`. -/
def EntryPoint.as_raw (x : EntryPoint) : Ptr := x.raw

/-- `pub fn as_raw(&self)` from `define_interface!`. -/
def TypeConformance.as_raw (x : TypeConformance) : Ptr := x.raw

/-- `pub fn as_raw(&self)` from `define_interface!`. -/
def Module.as_raw (x : Module) : Ptr := x.raw

/-- `impl Deref for EntryPoint` (third `define_interface!` arm):
`mem::transmute` of the `repr(transparent)` wrapper — bit-identical, no
runtime check. -/
def EntryPoint.deref (x : EntryPoint) : ComponentType := ⟨x.raw⟩

/-- `impl Deref for TypeConformance`: transmute to the `ComponentType` base. -/
def TypeConformance.deref (x : TypeConformance) : ComponentType := ⟨x.raw⟩

/-- `impl Deref for Module`: transmute to the `ComponentType` base. -/
def Module.deref (x : Module) : ComponentType := ⟨x.raw⟩

/-- `pub enum Error` from `utils.rs`: either a bare status code or a
diagnostic blob. -/
inductive Error where
  | Result (code : SlangResult)
  | Blob (blob : Blob)
deriving DecidableEq, Repr

/-- `pub type Result<T> = std::result::Result<T, Error>`. -/
abbrev Result (α : Type) := Except Error α

/-- `pub(crate) fn succeeded(result: sys::SlangResult) -> bool { result >= 0 }` -/
def succeeded (result : SlangResult) : Bool := result ≥ 0

/-- `pub(crate) fn result_from_ffi` from `utils.rs`. -/
def result_from_ffi (result : SlangResult) : Result Unit :=
  if result < 0 then .error (.Result result) else .ok ()

/-- `pub(crate) fn result_from_blob` from `utils.rs`: a failing status wraps
the diagnostics out-parameter (which may be null) in a blob-carrying error. -/
def result_from_blob (result : SlangResult) (blob : Ptr) : Result Unit :=
  if result < 0 then .error (.Blob ⟨blob⟩) else .ok ()

/-- A blob object living on the native side: its byte content and its
current reference count. -/
structure BlobObj where
  data : List UInt8
  refs : Nat
deriving DecidableEq, Repr

/-- The native heap of blob objects.  `none` means the address is not an
allocated blob object; dispatching a vtable call through such an address
(in particular through the null pointer) is undefined behaviour, which the
embedding models as an `Option.none` outcome. -/
def Heap := Ptr → Option BlobObj

/-- Point update of a heap. -/
def Heap.update (h : Heap) (p : Ptr) (o : BlobObj) : Heap :=
  fun q => if q = p then some o else h q

/-- A heap is valid when nothing is allocated at the null address. -/
def ValidHeap (h : Heap) : Prop := h nullPtr = none

/-- The heap with no allocated blob. -/
def emptyHeap : Heap := fun _ => none

/-- `Blob::as_slice`: calls the `getBufferPointer`/`getBufferSize` vtable
slots of the wrapped object and reads the pointed bytes.  Undefined
(`none`) when the wrapped pointer is not an allocated blob object. -/
def Blob.as_slice (h : Heap) (b : Blob) : Option (List UInt8) :=
  (h b.raw).map BlobObj.data

/-- `Blob::as_str`: `str::from_utf8(self.as_slice())`.  The outer `Option`
is definedness of the vtable dispatch; the inner `Option` is the
`Result<&str, Utf8Error>` of UTF-8 decoding. -/
def Blob.as_str (h : Heap) (b : Blob) : Option (Option String) :=
  (b.as_slice h).map fun bytes => String.fromUTF8? (ByteArray.mk bytes.toArray)

/-- `impl Clone for Blob` (from `define_interface!`): dispatches the
`ISlangUnknown_addRef` vtable slot through the wrapped pointer, then
returns a wrapper of the same pointer.  Undefined (`none`) when the
pointer is not an allocated object — in particular when it is null. -/
def Blob.clone (h : Heap) (b : Blob) : Option (Heap × Blob) :=
  match h b.raw with
  | none => none
  | some o => some (h.update b.raw ⟨o.data, o.refs + 1⟩, ⟨b.raw⟩)

/-- Dropping a `Blob` wrapper: no `Drop` impl exists anywhere in the crate,
so dropping performs no native call and leaves the heap unchanged. -/
def Blob.drop (h : Heap) (_ : Blob) : Heap := h

/-- The `Display` impl of `Error` derived by `thiserror`:
`Error::Result(code)` formats the code; `Error::Blob(blob)` formats
`blob.as_str().unwrap_or("")` with `{:?}`.  For a blob variant this
dispatches `getBufferPointer` through the wrapped pointer, so it is
undefined (`none`) when that pointer is not an allocated blob object. -/
def Error.display (h : Heap) : Error → Option String
  | .Result code => some (toString code)
  | .Blob b => (b.as_str h).map fun s => reprStr (s.getD "")

/-- `#[derive(Clone)]` on `Error`: the blob variant clones its `Blob`
(dispatching addRef through the wrapped pointer — undefined for a
non-allocated pointer), the status variant copies the code. -/
def Error.clone (h : Heap) : Error → Option (Heap × Error)
  | .Result code => some (h, .Result code)
  | .Blob b => (Blob.clone h b).map fun r => (r.1, .Blob r.2)

/-- Dropping an `Error`: no `Drop` impl exists for `Error` or `Blob`, so
dropping any error value — including a blob-carrying error holding the
null pointer — performs no native call and leaves the heap unchanged. -/
def Error.drop (h : Heap) (_ : Error) : Heap := h

/-- One call into the native library, as recorded in an operation's trace:
the add-reference vtable slot, the release vtable slot, any other vtable
slot (by name, with the receiver object), or a non-vtable entry point of
the library. -/
inductive NativeCall where
  | addRef (p : Ptr)
  | release (p : Ptr)
  | slot (name : String) (p : Ptr)
  | free (name : String)
deriving DecidableEq, Repr

/-- Whether a native call is an invocation of the release vtable slot. -/
def NativeCall.isRelease : NativeCall → Bool
  | .release _ => true
  | _ => false

/-- Reinterpretation `i32 as u32` (two's complement). -/
def u32_of_i32 (x : Int) : Nat := (x % (2 : Int) ^ 32).toNat

/-- Reinterpretation `u32 as i32` (two's complement). -/
def i32_of_u32 (n : Nat) : Int :=
  if n < 2 ^ 31 then (n : Int) else (n : Int) - 2 ^ 32

/-- The responses of the native library for the vtable slots the bridge
dispatches.  Each field models one slot: its result value together with
the values it writes through its out-parameters. -/
structure NativeEnv where
  /-- `loadModule(name, &mut diagnostics)`: returns the module pointer and
  the value written to the diagnostics out-parameter. -/
  loadModule : Ptr → String → Ptr × Ptr
  /-- `getDefinedEntryPointCount()`: a `SlangInt32`. -/
  getDefinedEntryPointCount : Ptr → Int
  /-- `getDefinedEntryPoint(index, &mut entry_point)`: status and the
  written entry-point pointer. -/
  getDefinedEntryPoint : Ptr → Int → SlangResult × Ptr
  /-- `getDependencyFileCount()`: a `SlangInt32`. -/
  getDependencyFileCount : Ptr → Int
  /-- `isParameterLocationUsed(category, space, register, &mut used)`:
  status and the resulting value of the `used` out-parameter. -/
  isParameterLocationUsed : Ptr → Int → Nat → Nat → SlangResult × Bool
  /-- `getLayout(target, &mut diagnostics)`: layout pointer and written
  diagnostics pointer. -/
  getLayout : Ptr → Int → Ptr × Ptr
  /-- `link(&mut linked, &mut diagnostics)`: status, linked component
  pointer, diagnostics pointer. -/
  linkCall : Ptr → SlangResult × Ptr × Ptr
  /-- `getTargetCode(target, &mut code, &mut diagnostics)`. -/
  getTargetCode : Ptr → Int → SlangResult × Ptr × Ptr
  /-- `getEntryPointCode(index, target, &mut code, &mut diagnostics)`. -/
  getEntryPointCode : Ptr → Int → Int → SlangResult × Ptr × Ptr

/-- `Session::load_module`: calls the `loadModule` vtable slot with a
null-initialized diagnostics out-parameter; a null module pointer becomes
`Err(Error::Blob(Blob(diagnostics)))`, a non-null one becomes
`Ok(Module(module))`. -/
def Session.load_module (env : NativeEnv) (s : Session) (name : String) :
    Result Module :=
  let r := env.loadModule s.raw name
  if r.1 = nullPtr then .error (.Blob ⟨r.2⟩) else .ok ⟨r.1⟩

/-- `Metadata::is_parameter_location_used`: dispatches the
`isParameterLocationUsed` slot and returns `succeeded(res).then_some(used)`. -/
def Metadata.is_parameter_location_used (env : NativeEnv) (m : Metadata)
    (category : Int) (space_index register_index : Nat) : Option Bool :=
  let r := env.isParameterLocationUsed m.raw category space_index register_index
  if succeeded r.1 then some r.2 else none

/-- `ComponentType::layout`: calls `getLayout`; a null layout pointer
becomes `Err(Error::Blob(Blob(diagnostics)))`. -/
def ComponentType.layout (env : NativeEnv) (c : ComponentType)
    (target_index : Int) : Result ProgramLayout :=
  let r := env.getLayout c.raw target_index
  if r.1 = nullPtr then .error (.Blob ⟨r.2⟩) else .ok ⟨r.1⟩

/-- `ComponentType::link`: calls the `link` slot and converts the status
with `result_from_blob`, wrapping the linked pointer on success. -/
def ComponentType.link (env : NativeEnv) (c : ComponentType) :
    Result ComponentType :=
  let r := env.linkCall c.raw
  (result_from_blob r.1 r.2.2).map fun _ => ⟨r.2.1⟩

/-- `ComponentType::target_code`: calls `getTargetCode` and converts the
status with `result_from_blob`, wrapping the code blob pointer on success. -/
def ComponentType.target_code (env : NativeEnv) (c : ComponentType)
    (target : Int) : Result Blob :=
  let r := env.getTargetCode c.raw target
  (result_from_blob r.1 r.2.2).map fun _ => ⟨r.2.1⟩

/-- `ComponentType::entry_point_code`: calls `getEntryPointCode` and
converts the status with `result_from_blob`. -/
def ComponentType.entry_point_code (env : NativeEnv) (c : ComponentType)
    (index target : Int) : Result Blob :=
  let r := env.getEntryPointCode c.raw index target
  (result_from_blob r.1 r.2.2).map fun _ => ⟨r.2.1⟩

/-- `Module::entry_point_count`: `getDefinedEntryPointCount() as u32`. -/
def Module.entry_point_count (env : NativeEnv) (m : Module) : Nat :=
  u32_of_i32 (env.getDefinedEntryPointCount m.raw)

/-- `Module::entry_point_by_index`: calls `getDefinedEntryPoint(index as _,
&mut entry_point)` and converts the status with `result_from_ffi`. -/
def Module.entry_point_by_index (env : NativeEnv) (m : Module) (index : Nat) :
    Result EntryPoint :=
  let r := env.getDefinedEntryPoint m.raw (i32_of_u32 index)
  (result_from_ffi r.1).map fun _ => ⟨r.2⟩

/-- The iterator state produced by `Module::entry_points`:
`(0..count).map(|i| self.entry_point_by_index(i).unwrap())` — the module
pointer captured by the closure, the eagerly computed upper bound, and the
current position of the range. -/
structure EntryPointsIter where
  modulePtr : Ptr
  count : Nat
  idx : Nat
deriving DecidableEq, Repr

/-- `Module::entry_points`: builds a fresh iterator (position `0`); the
only native call made at construction is the one `getDefinedEntryPointCount`
dispatch that computes the range's upper bound. -/
def Module.entry_points (env : NativeEnv) (m : Module) :
    EntryPointsIter × List NativeCall :=
  (⟨m.raw, m.entry_point_count env, 0⟩, [.slot "getDefinedEntryPointCount" m.raw])

/-- One `next()` step of the `entry_points` iterator: while the range is
not exhausted it dispatches `getDefinedEntryPoint` once (a fresh native
call — nothing is cached) and yields the unwrapped result (`none` models
the panic of `.unwrap()` on a failing status). -/
def EntryPointsIter.next (env : NativeEnv) (it : EntryPointsIter) :
    Option (Option EntryPoint × List NativeCall × EntryPointsIter) :=
  if it.idx < it.count then
    some ((Module.entry_point_by_index env ⟨it.modulePtr⟩ it.idx).toOption,
      [.slot "getDefinedEntryPoint" it.modulePtr],
      ⟨it.modulePtr, it.count, it.idx + 1⟩)
  else none

/-- Draining the iterator with an explicit fuel: collects the yielded
elements and concatenates the native-call traces of the steps. -/
def EntryPointsIter.runFuel (env : NativeEnv) :
    Nat → EntryPointsIter → List (Option EntryPoint) × List NativeCall
  | 0, _ => ([], [])
  | fuel + 1, it =>
    match EntryPointsIter.next env it with
    | none => ([], [])
    | some (v, calls, it2) =>
      let rest := EntryPointsIter.runFuel env fuel it2
      (v :: rest.1, calls ++ rest.2)

/-- Draining the iterator to exhaustion. -/
def EntryPointsIter.run (env : NativeEnv) (it : EntryPointsIter) :
    List (Option EntryPoint) × List NativeCall :=
  EntryPointsIter.runFuel env (it.count - it.idx) it

/-- Trace view of `impl Clone for Blob`: the native calls performed (one
addRef dispatch on the wrapped pointer) and the returned wrapper. -/
def Blob.cloneOp (x : Blob) : List NativeCall × Blob :=
  ([.addRef x.raw], ⟨x.raw⟩)

/-- Trace view of `impl Clone for GlobalSession`. -/
def GlobalSession.cloneOp (x : GlobalSession) : List NativeCall × GlobalSession :=
  ([.addRef x.raw], ⟨x.raw⟩)

/-- Trace view of `impl Clone for Session`. -/
def Session.cloneOp (x : Session) : List NativeCall × Session :=
  ([.addRef x.raw], ⟨x.raw⟩)

/-- Trace view of `impl Clone for Metadata`. -/
def Metadata.cloneOp (x : Metadata) : List NativeCall × Metadata :=
  ([.addRef x.raw], ⟨x.raw⟩)

/-- Trace view of `impl Clone for ProgramLayout`. -/
def ProgramLayout.cloneOp (x : ProgramLayout) : List NativeCall × ProgramLayout :=
  ([.addRef x.raw], ⟨x.raw⟩)

/-- Trace view of `impl Clone for ComponentType`. -/
def ComponentType.cloneOp (x : ComponentType) : List NativeCall × ComponentType :=
  ([.addRef x.raw], ⟨x.raw⟩)

/-- The third `define_interface!` arm emits no `Clone` impl for `Module`;
a `.clone()` call on a `Module` resolves through its `Deref` impl to
`ComponentType::clone` (this is how `tests.rs` duplicates modules:
`module.deref().clone()`). -/
def Module.cloneOp (x : Module) : List NativeCall × ComponentType :=
  ComponentType.cloneOp x.deref

/-- `EntryPoint` likewise has no own `Clone` impl; cloning goes through
`Deref` to `ComponentType::clone`. -/
def EntryPoint.cloneOp (x : EntryPoint) : List NativeCall × ComponentType :=
  ComponentType.cloneOp x.deref

/-- `TypeConformance` likewise clones through `Deref` to
`ComponentType::clone`. -/
def TypeConformance.cloneOp (x : TypeConformance) : List NativeCall × ComponentType :=
  ComponentType.cloneOp x.deref

/-- An invocation of one bridge operation from `lib.rs`/`utils.rs`,
together with the arguments that determine which native calls it makes.
`clone` and `drop` of every wrapper type are included. -/
inductive BridgeOp where
  | blob_as_slice (b : Blob)
  | blob_as_str (b : Blob)
  | blob_clone (b : Blob)
  | blob_drop (b : Blob)
  | global_session_new
  | global_session_new_without_core_module
  | create_session (g : GlobalSession)
  | find_profile (g : GlobalSession) (name : String)
  | find_capability (g : GlobalSession) (name : String)
  | global_session_clone (g : GlobalSession)
  | global_session_drop (g : GlobalSession)
  | load_module (s : Session) (name : String)
  | create_composite_component_type (s : Session) (components : List ComponentType)
  | session_clone (s : Session)
  | session_drop (s : Session)
  | is_parameter_location_used (m : Metadata) (category : Int) (space register : Nat)
  | metadata_clone (m : Metadata)
  | metadata_drop (m : Metadata)
  | program_layout_clone (p : ProgramLayout)
  | program_layout_drop (p : ProgramLayout)
  | layout (c : ComponentType) (target : Int)
  | link (c : ComponentType)
  | target_code (c : ComponentType) (target : Int)
  | entry_point_code (c : ComponentType) (index target : Int)
  | target_metadata (c : ComponentType) (target : Int)
  | entry_point_metadata (c : ComponentType) (index target : Int)
  | component_type_clone (c : ComponentType)
  | component_type_drop (c : ComponentType)
  | function_reflection (e : EntryPoint)
  | entry_point_clone (e : EntryPoint)
  | entry_point_drop (e : EntryPoint)
  | type_conformance_clone (t : TypeConformance)
  | type_conformance_drop (t : TypeConformance)
  | find_entry_point_by_name (m : Module) (name : String)
  | entry_point_count (m : Module)
  | entry_point_by_index (m : Module) (index : Nat)
  | entry_points_drain (m : Module)
  | module_name (m : Module)
  | file_path (m : Module)
  | unique_identity (m : Module)
  | dependency_file_count (m : Module)
  | dependency_file_path (m : Module) (index : Int)
  | dependency_file_paths (m : Module)
  | module_reflection (m : Module)
  | module_clone (m : Module)
  | module_drop (m : Module)

/-- The native calls each bridge operation performs, read off the bodies in
`lib.rs`/`utils.rs`.  Drop operations have empty traces since no wrapper
type has a `Drop` impl; `entry_points_drain` fully iterates the sequence
`Module::entry_points` returns; `dependency_file_paths` iterates
`(0..dependency_file_count())`. -/
def opTrace (env : NativeEnv) : BridgeOp → List NativeCall
  | .blob_as_slice b => [.slot "getBufferPointer" b.raw, .slot "getBufferSize" b.raw]
  | .blob_as_str b => [.slot "getBufferPointer" b.raw, .slot "getBufferSize" b.raw]
  | .blob_clone b => (Blob.cloneOp b).1
  | .blob_drop _ => []
  | .global_session_new => [.free "slang_createGlobalSession"]
  | .global_session_new_without_core_module =>
    [.free "slang_createGlobalSessionWithoutCoreModule"]
  | .create_session g => [.slot "createSession" g.raw]
  | .find_profile g _ => [.slot "findProfile" g.raw]
  | .find_capability g _ => [.slot "findCapability" g.raw]
  | .global_session_clone g => (GlobalSession.cloneOp g).1
  | .global_session_drop _ => []
  | .load_module s _ => [.slot "loadModule" s.raw]
  | .create_composite_component_type s _ => [.slot "createCompositeComponentType" s.raw]
  | .session_clone s => (Session.cloneOp s).1
  | .session_drop _ => []
  | .is_parameter_location_used m _ _ _ => [.slot "isParameterLocationUsed" m.raw]
  | .metadata_clone m => (Metadata.cloneOp m).1
  | .metadata_drop _ => []
  | .program_layout_clone p => (ProgramLayout.cloneOp p).1
  | .program_layout_drop _ => []
  | .layout c _ => [.slot "getLayout" c.raw]
  | .link c => [.slot "link" c.raw]
  | .target_code c _ => [.slot "getTargetCode" c.raw]
  | .entry_point_code c _ _ => [.slot "getEntryPointCode" c.raw]
  | .target_metadata c _ => [.slot "getTargetMetadata" c.raw]
  | .entry_point_metadata c _ _ => [.slot "getEntryPointMetadata" c.raw]
  | .component_type_clone c => (ComponentType.cloneOp c).1
  | .component_type_drop _ => []
  | .function_reflection e => [.slot "getFunctionReflection" e.raw]
  | .entry_point_clone e => (EntryPoint.cloneOp e).1
  | .entry_point_drop _ => []
  | .type_conformance_clone t => (TypeConformance.cloneOp t).1
  | .type_conformance_drop _ => []
  | .find_entry_point_by_name m _ => [.slot "findEntryPointByName" m.raw]
  | .entry_point_count m => [.slot "getDefinedEntryPointCount" m.raw]
  | .entry_point_by_index m _ => [.slot "getDefinedEntryPoint" m.raw]
  | .entry_points_drain m =>
    (Module.entry_points env m).2 ++ (EntryPointsIter.run env (Module.entry_points env m).1).2
  | .module_name m => [.slot "getName" m.raw]
  | .file_path m => [.slot "getFilePath" m.raw]
  | .unique_identity m => [.slot "getUniqueIdentity" m.raw]
  | .dependency_file_count m => [.slot "getDependencyFileCount" m.raw]
  | .dependency_file_path m _ => [.slot "getDependencyFilePath" m.raw]
  | .dependency_file_paths m =>
    .slot "getDependencyFileCount" m.raw ::
      (List.range (env.getDependencyFileCount m.raw).toNat).map
        (fun _ => .slot "getDependencyFilePath" m.raw)
  | .module_reflection m => [.slot "getModuleReflection" m.raw]
  | .module_clone m => (Module.cloneOp m).1
  | .module_drop _ => []

/-- `pub struct ProfileID(sys::SlangProfileID)`. -/
structure ProfileID where
  id : Int
deriving DecidableEq, Repr

/-- `pub struct CapabilityID(sys::SlangCapabilityID)`. -/
structure CapabilityID where
  id : Int
deriving DecidableEq, Repr

/-- Native enumerations re-exported by the crate; the option setters cast
them to `i32` with `as _`, so they are modelled by their integer value. -/
abbrev SourceLanguage := Int

/-- `SlangStage`. -/
abbrev Stage := Int

/-- `SlangCompileTarget`. -/
abbrev CompileTarget := Int

/-- `SlangFloatingPointMode`. -/
abbrev FloatingPointMode := Int

/-- `SlangDebugInfoLevel`. -/
abbrev DebugInfoLevel := Int

/-- `SlangLineDirectiveMode`. -/
abbrev LineDirectiveMode := Int

/-- `SlangOptimizationLevel`. -/
abbrev OptimizationLevel := Int

/-- The members of `slang_CompilerOptionName` used by the crate's option
setters. -/
inductive CompilerOptionName where
  | MacroDefine
  | Include
  | Language
  | MatrixLayoutColumn
  | MatrixLayoutRow
  | Profile
  | Stage
  | Target
  | WarningsAsErrors
  | DisableWarnings
  | EnableWarning
  | DisableWarning
  | ReportDownstreamTime
  | ReportPerfBenchmark
  | SkipSPIRVValidation
  | Capability
  | DefaultImageFormatUnknown
  | DisableDynamicDispatch
  | DisableSpecialization
  | FloatingPointMode
  | DebugInformation
  | LineDirectiveMode
  | Optimization
  | Obfuscate
  | VulkanUseEntryPointName
  | GLSLForceScalarLayout
  | EmitSpirvDirectly
  | NoCodeGen
  | NoMangle
  | ValidateUniformity
deriving DecidableEq, Repr

/-- `slang_CompilerOptionValueKind`: the tag of the option-value union. -/
inductive CompilerOptionValueKind where
  | Int
  | String
deriving DecidableEq, Repr

/-- `slang_CompilerOptionValue`: kind tag, two integer fields and two
C-string pointers (modelled by the pointed-to string, `none` = null). -/
structure slang_CompilerOptionValue where
  kind : CompilerOptionValueKind
  intValue0 : Int
  intValue1 : Int
  stringValue0 : Option String
  stringValue1 : Option String
deriving DecidableEq, Repr

/-- `slang_CompilerOptionEntry`: an option name plus its tagged value. -/
structure slang_CompilerOptionEntry where
  name : CompilerOptionName
  value : slang_CompilerOptionValue
deriving DecidableEq, Repr

/-- `pub struct CompilerOptions { strings: Vec<CString>, options:
Vec<slang_CompilerOptionEntry> }`. -/
structure CompilerOptions where
  strings : List String
  options : List slang_CompilerOptionEntry
deriving DecidableEq, Repr

/-- `CompilerOptions::default()`. -/
def CompilerOptions.default : CompilerOptions := ⟨[], []⟩

/-- `CompilerOptions::push_ints`: appends one `Int`-kind entry whose string
pointers are null. -/
def CompilerOptions.push_ints (o : CompilerOptions) (name : CompilerOptionName)
    (i0 i1 : Int) : CompilerOptions :=
  { o with options := o.options ++ [⟨name, ⟨.Int, i0, i1, none, none⟩⟩] }

/-- `CompilerOptions::push_strings`: appends one `String`-kind entry whose
integer fields are zero. -/
def CompilerOptions.push_strings (o : CompilerOptions) (name : CompilerOptionName)
    (s0 s1 : Option String) : CompilerOptions :=
  { o with options := o.options ++ [⟨name, ⟨.String, 0, 0, s0, s1⟩⟩] }

/-- `CompilerOptions::push_str1`: stores the C string and pushes a
one-string entry (second pointer null). -/
def CompilerOptions.push_str1 (o : CompilerOptions) (name : CompilerOptionName)
    (s0 : String) : CompilerOptions :=
  CompilerOptions.push_strings { o with strings := o.strings ++ [s0] } name (some s0) none

/-- `CompilerOptions::push_str2`: stores both C strings and pushes a
two-string entry. -/
def CompilerOptions.push_str2 (o : CompilerOptions) (name : CompilerOptionName)
    (s0 s1 : String) : CompilerOptions :=
  CompilerOptions.push_strings { o with strings := o.strings ++ [s0] ++ [s1] }
    name (some s0) (some s1)

/-- `option!(MacroDefine, macro_define(key: &str, value: &str))`. -/
def CompilerOptions.macro_define (o : CompilerOptions) (key value : String) :
    CompilerOptions :=
  o.push_str2 .MacroDefine key value

/-- `option!(Include, include(path: &str))`. -/
def CompilerOptions.include (o : CompilerOptions) (path : String) :
    CompilerOptions :=
  o.push_str1 .Include path

/-- `option!(Language, language(language: SourceLanguage))`. -/
def CompilerOptions.language (o : CompilerOptions) (language : SourceLanguage) :
    CompilerOptions :=
  o.push_ints .Language language 0

/-- `option!(MatrixLayoutColumn, matrix_layout_column(enable: bool))`;
`enable as _` casts the bool to the integer 0 or 1. -/
def CompilerOptions.matrix_layout_column (o : CompilerOptions) (enable : Bool) :
    CompilerOptions :=
  o.push_ints .MatrixLayoutColumn (if enable then 1 else 0) 0

/-- `option!(MatrixLayoutRow, matrix_layout_row(enable: bool))`. -/
def CompilerOptions.matrix_layout_row (o : CompilerOptions) (enable : Bool) :
    CompilerOptions :=
  o.push_ints .MatrixLayoutRow (if enable then 1 else 0) 0

/-- `CompilerOptions::profile`: `push_ints(Profile, profile.0 as _, 0)`. -/
def CompilerOptions.profile (o : CompilerOptions) (profile : ProfileID) :
    CompilerOptions :=
  o.push_ints .Profile profile.id 0

/-- `option!(Stage, stage(stage: Stage))`. -/
def CompilerOptions.stage (o : CompilerOptions) (stage : Stage) :
    CompilerOptions :=
  o.push_ints .Stage stage 0

/-- `option!(Target, target(target: CompileTarget))`. -/
def CompilerOptions.target (o : CompilerOptions) (target : CompileTarget) :
    CompilerOptions :=
  o.push_ints .Target target 0

/-- `option!(WarningsAsErrors, warnings_as_errors(warning_codes: &str))`. -/
def CompilerOptions.warnings_as_errors (o : CompilerOptions)
    (warning_codes : String) : CompilerOptions :=
  o.push_str1 .WarningsAsErrors warning_codes

/-- `option!(DisableWarnings, disable_warnings(warning_codes: &str))`. -/
def CompilerOptions.disable_warnings (o : CompilerOptions)
    (warning_codes : String) : CompilerOptions :=
  o.push_str1 .DisableWarnings warning_codes

/-- `option!(EnableWarning, enable_warning(warning_code: &str))`. -/
def CompilerOptions.enable_warning (o : CompilerOptions)
    (warning_code : String) : CompilerOptions :=
  o.push_str1 .EnableWarning warning_code

/-- `option!(DisableWarning, disable_warning(warning_code: &str))`. -/
def CompilerOptions.disable_warning (o : CompilerOptions)
    (warning_code : String) : CompilerOptions :=
  o.push_str1 .DisableWarning warning_code

/-- `option!(ReportDownstreamTime, report_downstream_time(enable: bool))`. -/
def CompilerOptions.report_downstream_time (o : CompilerOptions) (enable : Bool) :
    CompilerOptions :=
  o.push_ints .ReportDownstreamTime (if enable then 1 else 0) 0

/-- `option!(ReportPerfBenchmark, report_perf_benchmark(enable: bool))`. -/
def CompilerOptions.report_perf_benchmark (o : CompilerOptions) (enable : Bool) :
    CompilerOptions :=
  o.push_ints .ReportPerfBenchmark (if enable then 1 else 0) 0

/-- `option!(SkipSPIRVValidation, skip_spirv_validation(enable: bool))`. -/
def CompilerOptions.skip_spirv_validation (o : CompilerOptions) (enable : Bool) :
    CompilerOptions :=
  o.push_ints .SkipSPIRVValidation (if enable then 1 else 0) 0

/-- `CompilerOptions::capability`: `push_ints(Capability, capability.0 as _, 0)`. -/
def CompilerOptions.capability (o : CompilerOptions) (capability : CapabilityID) :
    CompilerOptions :=
  o.push_ints .Capability capability.id 0

/-- `option!(DefaultImageFormatUnknown, default_image_format_unknown(enable: bool))`. -/
def CompilerOptions.default_image_format_unknown (o : CompilerOptions)
    (enable : Bool) : CompilerOptions :=
  o.push_ints .DefaultImageFormatUnknown (if enable then 1 else 0) 0

/-- `option!(DisableDynamicDispatch, disable_dynamic_dispatch(enable: bool))`. -/
def CompilerOptions.disable_dynamic_dispatch (o : CompilerOptions) (enable : Bool) :
    CompilerOptions :=
  o.push_ints .DisableDynamicDispatch (if enable then 1 else 0) 0

/-- `option!(DisableSpecialization, disable_specialization(enable: bool))`. -/
def CompilerOptions.disable_specialization (o : CompilerOptions) (enable : Bool) :
    CompilerOptions :=
  o.push_ints .DisableSpecialization (if enable then 1 else 0) 0

/-- `option!(FloatingPointMode, floating_point_mode(mode: FloatingPointMode))`. -/
def CompilerOptions.floating_point_mode (o : CompilerOptions)
    (mode : FloatingPointMode) : CompilerOptions :=
  o.push_ints .FloatingPointMode mode 0

/-- `option!(DebugInformation, debug_information(level: DebugInfoLevel))`. -/
def CompilerOptions.debug_information (o : CompilerOptions)
    (level : DebugInfoLevel) : CompilerOptions :=
  o.push_ints .DebugInformation level 0

/-- `option!(LineDirectiveMode, line_directive_mode(mode: LineDirectiveMode))`. -/
def CompilerOptions.line_directive_mode (o : CompilerOptions)
    (mode : LineDirectiveMode) : CompilerOptions :=
  o.push_ints .LineDirectiveMode mode 0

/-- `option!(Optimization, optimization(level: OptimizationLevel))`. -/
def CompilerOptions.optimization (o : CompilerOptions)
    (level : OptimizationLevel) : CompilerOptions :=
  o.push_ints .Optimization level 0

/-- `option!(Obfuscate, obfuscate(enable: bool))`. -/
def CompilerOptions.obfuscate (o : CompilerOptions) (enable : Bool) :
    CompilerOptions :=
  o.push_ints .Obfuscate (if enable then 1 else 0) 0

/-- `option!(VulkanUseEntryPointName, vulkan_use_entry_point_name(enable: bool))`. -/
def CompilerOptions.vulkan_use_entry_point_name (o : CompilerOptions)
    (enable : Bool) : CompilerOptions :=
  o.push_ints .VulkanUseEntryPointName (if enable then 1 else 0) 0

/-- `option!(GLSLForceScalarLayout, glsl_force_scalar_layout(enable: bool))`. -/
def CompilerOptions.glsl_force_scalar_layout (o : CompilerOptions)
    (enable : Bool) : CompilerOptions :=
  o.push_ints .GLSLForceScalarLayout (if enable then 1 else 0) 0

/-- `option!(EmitSpirvDirectly, emit_spirv_directly(enable: bool))`. -/
def CompilerOptions.emit_spirv_directly (o : CompilerOptions) (enable : Bool) :
    CompilerOptions :=
  o.push_ints .EmitSpirvDirectly (if enable then 1 else 0) 0

/-- `option!(NoCodeGen, no_code_gen(enable: bool))`. -/
def CompilerOptions.no_code_gen (o : CompilerOptions) (enable : Bool) :
    CompilerOptions :=
  o.push_ints .NoCodeGen (if enable then 1 else 0) 0

/-- `option!(NoMangle, no_mangle(enable: bool))`. -/
def CompilerOptions.no_mangle (o : CompilerOptions) (enable : Bool) :
    CompilerOptions :=
  o.push_ints .NoMangle (if enable then 1 else 0) 0

/-- `option!(ValidateUniformity, validate_uniformity(enable: bool))`. -/
def CompilerOptions.validate_uniformity (o : CompilerOptions) (enable : Bool) :
    CompilerOptions :=
  o.push_ints .ValidateUniformity (if enable then 1 else 0) 0

/-- Shape of the entry every int-valued setter produces: kind `Int`,
second integer zero, both string pointers null. -/
def intEntry (name : CompilerOptionName) (i : Int) : slang_CompilerOptionEntry :=
  ⟨name, ⟨.Int, i, 0, none, none⟩⟩

/-- Shape of the entry every one-string setter produces: kind `String`,
both integers zero, second string pointer null. -/
def strEntry1 (name : CompilerOptionName) (s : String) : slang_CompilerOptionEntry :=
  ⟨name, ⟨.String, 0, 0, some s, none⟩⟩

/-- Shape of the entry the two-string setter produces. -/
def strEntry2 (name : CompilerOptionName) (s0 s1 : String) : slang_CompilerOptionEntry :=
  ⟨name, ⟨.String, 0, 0, some s0, some s1⟩⟩

/-- The byte sizes `std::mem::size_of` reports for the native descriptor
structs on the build platform.  The Rust code writes these values into the
leading `structureSize` field; their numeric values play no other role. -/
structure NativeSizes where
  targetDescSize : Nat
  sessionDescSize : Nat
deriving DecidableEq, Repr

/-- `sys::slang_TargetDesc`: the fixed-layout native target descriptor.
Pointer-plus-count pairs are modelled by the pointed-to array (`none` =
null pointer). -/
structure slang_TargetDesc where
  structureSize : Nat
  format : Int
  profile : Int
  flags : Nat
  floatingPointMode : Int
  lineDirectiveMode : Int
  forceGLSLScalarBufferLayout : Bool
  compilerOptionEntries : Option (List slang_CompilerOptionEntry)
  compilerOptionEntryCount : Nat
deriving DecidableEq, Repr

/-- `pub struct TargetDesc<'a>`: `repr(transparent)` over the native
struct (the `PhantomData` lifetime marker has no runtime content). -/
structure TargetDesc where
  inner : slang_TargetDesc
deriving DecidableEq, Repr

/-- `impl Default for TargetDesc`: `structureSize` is set to
`size_of::<sys::slang_TargetDesc>()` and every other field comes from
`mem::zeroed()` (numeric zero, null pointer, false). -/
def TargetDesc.default (sz : NativeSizes) : TargetDesc :=
  ⟨{ structureSize := sz.targetDescSize
     format := 0
     profile := 0
     flags := 0
     floatingPointMode := 0
     lineDirectiveMode := 0
     forceGLSLScalarBufferLayout := false
     compilerOptionEntries := none
     compilerOptionEntryCount := 0 }⟩

/-- `TargetDesc::format`: sets only `inner.format`. -/
def TargetDesc.format (d : TargetDesc) (format : CompileTarget) : TargetDesc :=
  ⟨{ d.inner with format := format }⟩

/-- `TargetDesc::profile`: sets only `inner.profile` (to `profile.0`). -/
def TargetDesc.profile (d : TargetDesc) (profile : ProfileID) : TargetDesc :=
  ⟨{ d.inner with profile := profile.id }⟩

/-- `TargetDesc::options`: sets `inner.compilerOptionEntries` to the
borrowed option array and `inner.compilerOptionEntryCount` to its length. -/
def TargetDesc.options (d : TargetDesc) (options : CompilerOptions) : TargetDesc :=
  ⟨{ d.inner with
     compilerOptionEntries := some options.options
     compilerOptionEntryCount := options.options.length }⟩

/-- `sys::slang_SessionDesc`: the fixed-layout native session descriptor.
String-array and object pointers are modelled as arrays / addresses;
`preprocessorMacros` and `fileSystem` are bare pointers (0 = null). -/
structure slang_SessionDesc where
  structureSize : Nat
  targets : Option (List slang_TargetDesc)
  targetCount : Nat
  flags : Nat
  defaultMatrixLayoutMode : Int
  searchPaths : Option (List Ptr)
  searchPathCount : Nat
  preprocessorMacros : Ptr
  preprocessorMacroCount : Nat
  fileSystem : Ptr
  enableEffectAnnotations : Bool
  allowGLSLSyntax : Bool
  compilerOptionEntries : Option (List slang_CompilerOptionEntry)
  compilerOptionEntryCount : Nat
deriving DecidableEq, Repr

/-- `pub struct SessionDesc<'a>`: `repr(transparent)` over the native
struct. -/
structure SessionDesc where
  inner : slang_SessionDesc
deriving DecidableEq, Repr

/-- `impl Default for SessionDesc`: `structureSize` is set to
`size_of::<sys::slang_SessionDesc>()` and every other field comes from
`mem::zeroed()`. -/
def SessionDesc.default (sz : NativeSizes) : SessionDesc :=
  ⟨{ structureSize := sz.sessionDescSize
     targets := none
     targetCount := 0
     flags := 0
     defaultMatrixLayoutMode := 0
     searchPaths := none
     searchPathCount := 0
     preprocessorMacros := nullPtr
     preprocessorMacroCount := 0
     fileSystem := nullPtr
     enableEffectAnnotations := false
     allowGLSLSyntax := false
     compilerOptionEntries := none
     compilerOptionEntryCount := 0 }⟩

/-- `SessionDesc::targets`: sets `inner.targets` to the borrowed target
array (the cast from `*const TargetDesc` is the transparent-wrapper cast)
and `inner.targetCount` to its length. -/
def SessionDesc.targets (d : SessionDesc) (targets : List TargetDesc) : SessionDesc :=
  ⟨{ d.inner with
     targets := some (targets.map TargetDesc.inner)
     targetCount := targets.length }⟩

/-- `SessionDesc::search_paths`: sets `inner.searchPaths` to the borrowed
array of C-string pointers and `inner.searchPathCount` to its length. -/
def SessionDesc.search_paths (d : SessionDesc) (paths : List Ptr) : SessionDesc :=
  ⟨{ d.inner with
     searchPaths := some paths
     searchPathCount := paths.length }⟩

/-- `SessionDesc::options`: sets `inner.compilerOptionEntries` and
`inner.compilerOptionEntryCount`. -/
def SessionDesc.options (d : SessionDesc) (options : CompilerOptions) : SessionDesc :=
  ⟨{ d.inner with
     compilerOptionEntries := some options.options
     compilerOptionEntryCount := options.options.length }⟩

/-- `SessionDesc::file_system`: leaks a `FileSystemImpl` wrapping the
host-supplied capability and stores the leaked object's address in
`inner.fileSystem`; no other field is touched.  The model takes the leaked
address as a parameter. -/
def SessionDesc.file_system (d : SessionDesc) (fs : Ptr) : SessionDesc :=
  ⟨{ d.inner with fileSystem := fs }⟩

/-- A concrete native environment used to instantiate theorems with
hypotheses at explicit inputs. -/
def sampleEnv : NativeEnv where
  loadModule := fun _ _ => (7, nullPtr)
  getDefinedEntryPointCount := fun _ => 2
  getDefinedEntryPoint := fun _ i => (0, 10 + i.toNat)
  getDependencyFileCount := fun _ => 1
  isParameterLocationUsed := fun _ _ _ _ => (0, true)
  getLayout := fun _ _ => (3, nullPtr)
  linkCall := fun _ => (0, 4, nullPtr)
  getTargetCode := fun _ _ => (0, 5, nullPtr)
  getEntryPointCode := fun _ _ _ => (0, 6, nullPtr)

/-- A concrete heap holding one blob object (bytes `[65]`, one reference)
at address `1`. -/
def sampleHeap : Heap :=
  fun p => if p = 1 then some ⟨[65], 1⟩ else none

/-- C1: status polarity.  `succeeded r` holds exactly when `r ≥ 0`;
`result_from_ffi r` and `result_from_blob r b` return `Err` exactly when
`r < 0` and `Ok(())` otherwise, so a negative status is never paired with a
claimed-successful output value. -/
theorem status_polarity (r : SlangResult) (b : Ptr) :
    (succeeded r = true ↔ 0 ≤ r) ∧
    (result_from_ffi r = .ok () ↔ 0 ≤ r) ∧
    (result_from_ffi r = .error (.Result r) ↔ r < 0) ∧
    (result_from_blob r b = .ok () ↔ 0 ≤ r) ∧
    (result_from_blob r b = .error (.Blob ⟨b⟩) ↔ r < 0) := by
  unfold succeeded result_from_ffi result_from_blob
  rcases lt_or_le r 0 with h | h
  · simp [h, not_le.mpr h, decide_eq_true_eq]
  · simp [h, not_lt.mpr h, decide_eq_true_eq]


/-- C2: `Session::load_module` fails exactly when the native `loadModule`
call yields a null module pointer; the error is always the blob-carrying
kind wrapping the diagnostics out-parameter (never a bare status code);
a non-null module pointer yields `Ok` with a `Module` wrapping it. -/
theorem load_module_diagnostics (env : NativeEnv) (s : Session) (name : String) :
    (∀ e, Session.load_module env s name = .error e ↔
      ((env.loadModule s.raw name).1 = nullPtr ∧
        e = .Blob ⟨(env.loadModule s.raw name).2⟩)) ∧
    ((env.loadModule s.raw name).1 ≠ nullPtr →
      Session.load_module env s name = .ok ⟨(env.loadModule s.raw name).1⟩) ∧
    (∀ code, Session.load_module env s name ≠ .error (.Result code)) := by
  unfold Session.load_module
  by_cases h : (env.loadModule s.raw name).1 = nullPtr <;> simp [h]
  exact fun e => eq_comm

/-- Witness for C2: under `sampleEnv` the native module pointer is `7`
(non-null), so loading succeeds with a `Module` wrapping `7`. -/
theorem load_module_diagnostics_witness :
    Session.load_module sampleEnv ⟨1⟩ "m" = .ok ⟨7⟩ :=
  (load_module_diagnostics sampleEnv ⟨1⟩ "m").2.1 (by decide)

/-- C3 counterexample: the claim says a blob-carrying error with a null
blob pointer can be formatted for display and cloned safely, the null
pointer being treated as an absent diagnostic.  In fact `Error`'s
`Display` impl calls `Blob::as_str` (which dispatches `getBufferPointer`
through the pointer) and `Error`'s derived `Clone` dispatches addRef
through the pointer, so with the null pointer — unallocated in every
valid heap, here the empty heap — both are undefined behaviour (`none`),
not an absent diagnostic. -/
theorem null_blob_error_display_clone_undefined :
    ValidHeap emptyHeap ∧
    Error.display emptyHeap (.Blob ⟨nullPtr⟩) = none ∧
    Error.clone emptyHeap (.Blob ⟨nullPtr⟩) = none :=
  ⟨rfl, rfl, rfl⟩

/-- C3 amended: a blob-carrying error is constructible (the constructor is
total) and droppable safely for every pointer — dropping performs no
native call and leaves the heap unchanged — but formatting it for display
or cloning it dereferences the blob pointer, so for the null pointer both
are undefined behaviour under any valid heap. -/
theorem null_blob_error_construct_drop_safe (h : Heap) (p : Ptr)
    (hv : ValidHeap h) :
    Error.drop h (.Blob ⟨p⟩) = h ∧
    Blob.drop h ⟨p⟩ = h ∧
    Error.display h (.Blob ⟨nullPtr⟩) = none ∧
    Error.clone h (.Blob ⟨nullPtr⟩) = none := by
  have hv2 : h nullPtr = none := hv
  refine ⟨rfl, rfl, ?_, ?_⟩
  · simp [Error.display, Blob.as_str, Blob.as_slice, hv2]
  · simp [Error.clone, Blob.clone, hv2]

/-- Witness for the C3 amended theorem at the empty heap and pointer 3. -/
theorem null_blob_error_construct_drop_safe_witness :
    Error.drop emptyHeap (.Blob ⟨3⟩) = emptyHeap ∧
    Blob.drop emptyHeap ⟨3⟩ = emptyHeap ∧
    Error.display emptyHeap (.Blob ⟨nullPtr⟩) = none ∧
    Error.clone emptyHeap (.Blob ⟨nullPtr⟩) = none :=
  null_blob_error_construct_drop_safe emptyHeap 3 rfl

/-- Helper: every native call recorded while draining the entry-point
iterator is a `getDefinedEntryPoint` slot dispatch — never a release. -/
theorem runFuel_calls_are_slots (env : NativeEnv) :
    ∀ (fuel : Nat) (it : EntryPointsIter),
    ∀ c ∈ (EntryPointsIter.runFuel env fuel it).2,
      c = NativeCall.slot "getDefinedEntryPoint" it.modulePtr := by
  intro fuel
  induction fuel with
  | zero => intro it c hc; simp [EntryPointsIter.runFuel] at hc
  | succ n ih =>
    intro it c hc
    rw [EntryPointsIter.runFuel] at hc
    by_cases hlt : it.idx < it.count
    · simp only [EntryPointsIter.next, hlt, if_pos] at hc
      rcases List.mem_append.mp hc with h1 | h2
      · simpa using h1
      · exact ih ⟨it.modulePtr, it.count, it.idx + 1⟩ c h2
    · simp [EntryPointsIter.next, hlt] at hc

/-- C4: for every wrapper type, `clone` dispatches the addRef vtable slot
exactly once and returns a wrapper of the same raw pointer (for
`EntryPoint`, `TypeConformance` and `Module`, which get no own `Clone`
impl from `define_interface!`, a `.clone()` call resolves through `Deref`
to `ComponentType::clone`, so the returned wrapper is the `ComponentType`
base holding the same pointer); and no bridge operation — dropping any
wrapper included — ever records a release call, so every duplicate leaks
exactly one reference. -/
theorem clone_adds_one_reference_and_nothing_releases :
    (∀ (env : NativeEnv) (op : BridgeOp), ∀ c ∈ opTrace env op,
      c.isRelease = false) ∧
    (∀ b : Blob, b.cloneOp = ([.addRef b.raw], ⟨b.raw⟩)) ∧
    (∀ g : GlobalSession, g.cloneOp = ([.addRef g.raw], ⟨g.raw⟩)) ∧
    (∀ s : Session, s.cloneOp = ([.addRef s.raw], ⟨s.raw⟩)) ∧
    (∀ m : Metadata, m.cloneOp = ([.addRef m.raw], ⟨m.raw⟩)) ∧
    (∀ p : ProgramLayout, p.cloneOp = ([.addRef p.raw], ⟨p.raw⟩)) ∧
    (∀ c : ComponentType, c.cloneOp = ([.addRef c.raw], ⟨c.raw⟩)) ∧
    (∀ e : EntryPoint, e.cloneOp = ([.addRef e.raw], ⟨e.raw⟩)) ∧
    (∀ t : TypeConformance, t.cloneOp = ([.addRef t.raw], ⟨t.raw⟩)) ∧
    (∀ m : Module, m.cloneOp = ([.addRef m.raw], ⟨m.raw⟩)) := by
  refine ⟨?_, fun _ => rfl, fun _ => rfl, fun _ => rfl, fun _ => rfl,
    fun _ => rfl, fun _ => rfl, fun _ => rfl, fun _ => rfl, fun _ => rfl⟩
  intro env op c hc
  cases op <;>
    simp_all [opTrace, NativeCall.isRelease, Blob.cloneOp, GlobalSession.cloneOp,
      Session.cloneOp, Metadata.cloneOp, ProgramLayout.cloneOp,
      ComponentType.cloneOp, EntryPoint.cloneOp, TypeConformance.cloneOp,
      Module.cloneOp, Module.entry_points, EntryPointsIter.run]
  case blob_as_slice b =>
    rcases hc with h | h <;> simp [h, NativeCall.isRelease]
  case blob_as_str b =>
    rcases hc with h | h <;> simp [h, NativeCall.isRelease]
  case dependency_file_paths m =>
    rcases hc with h | h
    · simp [h, NativeCall.isRelease]
    · simp [h.2, NativeCall.isRelease]
  case entry_points_drain m =>
    rcases hc with h1 | h2
    · simp [h1, NativeCall.isRelease]
    · have := runFuel_calls_are_slots env _ _ c h2
      simp [this, NativeCall.isRelease]

/-- Witness for C4: the `load_module` bridge operation's only native call
under `sampleEnv` is the `loadModule` slot dispatch, which is not a
release. -/
theorem clone_adds_one_reference_witness :
    NativeCall.isRelease (.slot "loadModule" 1) = false :=
  clone_adds_one_reference_and_nothing_releases.1 sampleEnv
    (.load_module ⟨1⟩ "m") (.slot "loadModule" 1) (by simp [opTrace])

/-- C5: widening a narrower-capability handle (`EntryPoint`, `Module`,
`TypeConformance`) to its `ComponentType` base via `Deref` is a total
function (no runtime check) that preserves the raw pointer, and every
`ComponentType` operation invoked through the widened handle is the
operation on a `ComponentType` wrapper of that same pointer — its native
call dispatches on the same underlying object. -/
theorem widen_preserves_pointer_and_dispatch (env : NativeEnv) (m : Module)
    (e : EntryPoint) (tc : TypeConformance) (t i : Int) :
    m.deref.as_raw = m.as_raw ∧
    e.deref.as_raw = e.as_raw ∧
    tc.deref.as_raw = tc.as_raw ∧
    ComponentType.layout env m.deref t = ComponentType.layout env ⟨m.as_raw⟩ t ∧
    ComponentType.link env m.deref = ComponentType.link env ⟨m.as_raw⟩ ∧
    ComponentType.target_code env m.deref t =
      ComponentType.target_code env ⟨m.as_raw⟩ t ∧
    ComponentType.entry_point_code env m.deref i t =
      ComponentType.entry_point_code env ⟨m.as_raw⟩ i t ∧
    opTrace env (.layout m.deref t) = [.slot "getLayout" m.as_raw] ∧
    opTrace env (.link m.deref) = [.slot "link" m.as_raw] ∧
    opTrace env (.target_code m.deref t) = [.slot "getTargetCode" m.as_raw] ∧
    opTrace env (.entry_point_code m.deref i t) =
      [.slot "getEntryPointCode" m.as_raw] :=
  ⟨rfl, rfl, rfl, rfl, rfl, rfl, rfl, rfl, rfl, rfl, rfl⟩

/-- C6: every compiler-option setter appends exactly one entry carrying
its `CompilerOptionName`, leaving all previously pushed entries unchanged;
int-valued setters produce an `Int`-kind entry with both string pointers
null (and second integer zero), string-valued setters produce a
`String`-kind entry with both integer fields zero (second string pointer
null for the one-string setters). -/
theorem option_builder_roundtrip :
    (∀ (o : CompilerOptions) (k v : String),
      (o.macro_define k v).options = o.options ++ [strEntry2 .MacroDefine k v]) ∧
    (∀ (o : CompilerOptions) (p : String),
      (o.include p).options = o.options ++ [strEntry1 .Include p]) ∧
    (∀ (o : CompilerOptions) (x : SourceLanguage),
      (o.language x).options = o.options ++ [intEntry .Language x]) ∧
    (∀ (o : CompilerOptions) (b : Bool),
      (o.matrix_layout_column b).options =
        o.options ++ [intEntry .MatrixLayoutColumn (if b then 1 else 0)]) ∧
    (∀ (o : CompilerOptions) (b : Bool),
      (o.matrix_layout_row b).options =
        o.options ++ [intEntry .MatrixLayoutRow (if b then 1 else 0)]) ∧
    (∀ (o : CompilerOptions) (p : ProfileID),
      (o.profile p).options = o.options ++ [intEntry .Profile p.id]) ∧
    (∀ (o : CompilerOptions) (x : Stage),
      (o.stage x).options = o.options ++ [intEntry .Stage x]) ∧
    (∀ (o : CompilerOptions) (x : CompileTarget),
      (o.target x).options = o.options ++ [intEntry .Target x]) ∧
    (∀ (o : CompilerOptions) (w : String),
      (o.warnings_as_errors w).options =
        o.options ++ [strEntry1 .WarningsAsErrors w]) ∧
    (∀ (o : CompilerOptions) (w : String),
      (o.disable_warnings w).options =
        o.options ++ [strEntry1 .DisableWarnings w]) ∧
    (∀ (o : CompilerOptions) (w : String),
      (o.enable_warning w).options = o.options ++ [strEntry1 .EnableWarning w]) ∧
    (∀ (o : CompilerOptions) (w : String),
      (o.disable_warning w).options =
        o.options ++ [strEntry1 .DisableWarning w]) ∧
    (∀ (o : CompilerOptions) (b : Bool),
      (o.report_downstream_time b).options =
        o.options ++ [intEntry .ReportDownstreamTime (if b then 1 else 0)]) ∧
    (∀ (o : CompilerOptions) (b : Bool),
      (o.report_perf_benchmark b).options =
        o.options ++ [intEntry .ReportPerfBenchmark (if b then 1 else 0)]) ∧
    (∀ (o : CompilerOptions) (b : Bool),
      (o.skip_spirv_validation b).options =
        o.options ++ [intEntry .SkipSPIRVValidation (if b then 1 else 0)]) ∧
    (∀ (o : CompilerOptions) (c : CapabilityID),
      (o.capability c).options = o.options ++ [intEntry .Capability c.id]) ∧
    (∀ (o : CompilerOptions) (b : Bool),
      (o.default_image_format_unknown b).options =
        o.options ++ [intEntry .DefaultImageFormatUnknown (if b then 1 else 0)]) ∧
    (∀ (o : CompilerOptions) (b : Bool),
      (o.disable_dynamic_dispatch b).options =
        o.options ++ [intEntry .DisableDynamicDispatch (if b then 1 else 0)]) ∧
    (∀ (o : CompilerOptions) (b : Bool),
      (o.disable_specialization b).options =
        o.options ++ [intEntry .DisableSpecialization (if b then 1 else 0)]) ∧
    (∀ (o : CompilerOptions) (x : FloatingPointMode),
      (o.floating_point_mode x).options =
        o.options ++ [intEntry .FloatingPointMode x]) ∧
    (∀ (o : CompilerOptions) (x : DebugInfoLevel),
      (o.debug_information x).options =
        o.options ++ [intEntry .DebugInformation x]) ∧
    (∀ (o : CompilerOptions) (x : LineDirectiveMode),
      (o.line_directive_mode x).options =
        o.options ++ [intEntry .LineDirectiveMode x]) ∧
    (∀ (o : CompilerOptions) (x : OptimizationLevel),
      (o.optimization x).options = o.options ++ [intEntry .Optimization x]) ∧
    (∀ (o : CompilerOptions) (b : Bool),
      (o.obfuscate b).options =
        o.options ++ [intEntry .Obfuscate (if b then 1 else 0)]) ∧
    (∀ (o : CompilerOptions) (b : Bool),
      (o.vulkan_use_entry_point_name b).options =
        o.options ++ [intEntry .VulkanUseEntryPointName (if b then 1 else 0)]) ∧
    (∀ (o : CompilerOptions) (b : Bool),
      (o.glsl_force_scalar_layout b).options =
        o.options ++ [intEntry .GLSLForceScalarLayout (if b then 1 else 0)]) ∧
    (∀ (o : CompilerOptions) (b : Bool),
      (o.emit_spirv_directly b).options =
        o.options ++ [intEntry .EmitSpirvDirectly (if b then 1 else 0)]) ∧
    (∀ (o : CompilerOptions) (b : Bool),
      (o.no_code_gen b).options =
        o.options ++ [intEntry .NoCodeGen (if b then 1 else 0)]) ∧
    (∀ (o : CompilerOptions) (b : Bool),
      (o.no_mangle b).options =
        o.options ++ [intEntry .NoMangle (if b then 1 else 0)]) ∧
    (∀ (o : CompilerOptions) (b : Bool),
      (o.validate_uniformity b).options =
        o.options ++ [intEntry .ValidateUniformity (if b then 1 else 0)]) := by
  repeat' apply And.intro
  all_goals intros
  all_goals rfl

/-- C7: `TargetDesc::default()` and `SessionDesc::default()` set the
leading `structureSize` field to `size_of` of the corresponding native
descriptor struct and every other field to its zeroed value (numeric 0,
null pointer, false); each builder setter modifies only its own fields,
copying every other field — `structureSize` included — unchanged. -/
theorem descriptor_builders (sz : NativeSizes) (dt : TargetDesc)
    (ds : SessionDesc) (fmt : CompileTarget) (pr : ProfileID)
    (co : CompilerOptions) (ts : List TargetDesc) (sp : List Ptr) (fs : Ptr) :
    TargetDesc.default sz =
      ⟨{ structureSize := sz.targetDescSize
         format := 0
         profile := 0
         flags := 0
         floatingPointMode := 0
         lineDirectiveMode := 0
         forceGLSLScalarBufferLayout := false
         compilerOptionEntries := none
         compilerOptionEntryCount := 0 }⟩ ∧
    SessionDesc.default sz =
      ⟨{ structureSize := sz.sessionDescSize
         targets := none
         targetCount := 0
         flags := 0
         defaultMatrixLayoutMode := 0
         searchPaths := none
         searchPathCount := 0
         preprocessorMacros := nullPtr
         preprocessorMacroCount := 0
         fileSystem := nullPtr
         enableEffectAnnotations := false
         allowGLSLSyntax := false
         compilerOptionEntries := none
         compilerOptionEntryCount := 0 }⟩ ∧
    (dt.format fmt).inner = { dt.inner with format := fmt } ∧
    (dt.profile pr).inner = { dt.inner with profile := pr.id } ∧
    (dt.options co).inner =
      { dt.inner with
        compilerOptionEntries := some co.options
        compilerOptionEntryCount := co.options.length } ∧
    (ds.targets ts).inner =
      { ds.inner with
        targets := some (ts.map TargetDesc.inner)
        targetCount := ts.length } ∧
    (ds.search_paths sp).inner =
      { ds.inner with
        searchPaths := some sp
        searchPathCount := sp.length } ∧
    (ds.options co).inner =
      { ds.inner with
        compilerOptionEntries := some co.options
        compilerOptionEntryCount := co.options.length } ∧
    (ds.file_system fs).inner = { ds.inner with fileSystem := fs } :=
  ⟨rfl, rfl, rfl, rfl, rfl, rfl, rfl, rfl, rfl⟩

/-- Helper: draining the entry-point iterator with enough fuel yields, for
each index of the remaining range, the unwrapped result of a fresh
`entry_point_by_index` call, and records exactly one
`getDefinedEntryPoint` dispatch per element. -/
theorem runFuel_spec (env : NativeEnv) :
    ∀ (fuel : Nat) (it : EntryPointsIter), it.count - it.idx ≤ fuel →
    EntryPointsIter.runFuel env fuel it =
      ((List.range' it.idx (it.count - it.idx)).map
         (fun i => (Module.entry_point_by_index env ⟨it.modulePtr⟩ i).toOption),
       (List.range' it.idx (it.count - it.idx)).map
         (fun _ => NativeCall.slot "getDefinedEntryPoint" it.modulePtr)) := by
  intro fuel
  induction fuel with
  | zero =>
    intro it h
    have h0 : it.count - it.idx = 0 := Nat.le_zero.mp h
    simp [EntryPointsIter.runFuel, h0]
  | succ n ih =>
    intro it h
    by_cases hlt : it.idx < it.count
    · have hc : it.count - it.idx = (it.count - (it.idx + 1)) + 1 := by omega
      have ih2 := ih ⟨it.modulePtr, it.count, it.idx + 1⟩ (by simp; omega)
      rw [EntryPointsIter.runFuel]
      simp only [EntryPointsIter.next, hlt, if_pos]
      rw [ih2, hc, List.range'_succ]
      simp
    · have h0 : it.count - it.idx = 0 := by omega
      rw [EntryPointsIter.runFuel]
      simp [EntryPointsIter.next, hlt, h0]

/-- C8: `Module::entry_points` is a finite, restartable sequence: the
iterator it returns starts at position `0` with an eagerly computed upper
bound equal to `entry_point_count()` (one `getDefinedEntryPointCount`
dispatch at construction); draining it yields, for each `i` below the
count, exactly the (unwrapped) result of `entry_point_by_index(i)`, its
length equals the count, and its trace holds exactly one fresh
`getDefinedEntryPoint` dispatch per element; each single `next()` demand
performs that one dispatch — nothing is cached. -/
theorem entry_points_lazy (env : NativeEnv) (m : Module) :
    ((Module.entry_points env m).1 = ⟨m.raw, m.entry_point_count env, 0⟩) ∧
    ((Module.entry_points env m).2 =
      [.slot "getDefinedEntryPointCount" m.raw]) ∧
    ((EntryPointsIter.run env (Module.entry_points env m).1).1 =
      (List.range (m.entry_point_count env)).map
        (fun i => (Module.entry_point_by_index env m i).toOption)) ∧
    ((EntryPointsIter.run env (Module.entry_points env m).1).1.length =
      m.entry_point_count env) ∧
    ((EntryPointsIter.run env (Module.entry_points env m).1).2 =
      (List.range (m.entry_point_count env)).map
        (fun _ => NativeCall.slot "getDefinedEntryPoint" m.raw)) ∧
    (∀ it : EntryPointsIter, it.idx < it.count →
      EntryPointsIter.next env it =
        some ((Module.entry_point_by_index env ⟨it.modulePtr⟩ it.idx).toOption,
          [.slot "getDefinedEntryPoint" it.modulePtr],
          ⟨it.modulePtr, it.count, it.idx + 1⟩)) := by
  have hrun := runFuel_spec env (m.entry_point_count env)
    ⟨m.raw, m.entry_point_count env, 0⟩ (by simp)
  refine ⟨rfl, rfl, ?_, ?_, ?_, ?_⟩
  · show (EntryPointsIter.runFuel env (m.entry_point_count env - 0)
      ⟨m.raw, m.entry_point_count env, 0⟩).1 = _
    rw [Nat.sub_zero, hrun, List.range_eq_range']
    simp
  · show (EntryPointsIter.runFuel env (m.entry_point_count env - 0)
      ⟨m.raw, m.entry_point_count env, 0⟩).1.length = _
    rw [Nat.sub_zero, hrun]
    simp
  · show (EntryPointsIter.runFuel env (m.entry_point_count env - 0)
      ⟨m.raw, m.entry_point_count env, 0⟩).2 = _
    rw [Nat.sub_zero, hrun, List.range_eq_range']
    simp
  · intro it hlt
    simp [EntryPointsIter.next, hlt]

/-- Witness for C8: under `sampleEnv` (two defined entry points) a fresh
`next()` at position 0 of the iterator over the module at address 5 makes
one `getDefinedEntryPoint` dispatch and yields the index-0 result. -/
theorem entry_points_lazy_witness :
    EntryPointsIter.next sampleEnv ⟨5, 2, 0⟩ =
      some ((Module.entry_point_by_index sampleEnv ⟨5⟩ 0).toOption,
        [.slot "getDefinedEntryPoint" 5], ⟨5, 2, 1⟩) :=
  (entry_points_lazy sampleEnv ⟨5⟩).2.2.2.2.2 ⟨5, 2, 0⟩ (by decide)

/-- C9: cloning a `Blob` that wraps an allocated blob object succeeds,
increments only the reference count, and the clone reads back exactly the
original's bytes; dropping the original (which performs no native call and
changes nothing) leaves the clone byte-identical. -/
theorem blob_clone_preserves_content (h : Heap) (b : Blob) (o : BlobObj)
    (hb : h b.raw = some o) :
    ∃ h2 b2, Blob.clone h b = some (h2, b2) ∧
      Blob.as_slice h b = some o.data ∧
      Blob.as_slice h2 b2 = some o.data ∧
      Blob.as_slice (Blob.drop h2 b) b2 = some o.data ∧
      h2 b.raw = some ⟨o.data, o.refs + 1⟩ := by
  refine ⟨h.update b.raw ⟨o.data, o.refs + 1⟩, ⟨b.raw⟩, ?_, ?_, ?_, ?_, ?_⟩ <;>
    simp [Blob.clone, Blob.as_slice, Blob.drop, Heap.update, hb]

/-- Witness for C9 on `sampleHeap`: the blob at address 1 holds `[65]`. -/
theorem blob_clone_preserves_content_witness :
    ∃ h2 b2, Blob.clone sampleHeap ⟨1⟩ = some (h2, b2) ∧
      Blob.as_slice sampleHeap ⟨1⟩ = some [65] ∧
      Blob.as_slice h2 b2 = some [65] ∧
      Blob.as_slice (Blob.drop h2 ⟨1⟩) b2 = some [65] ∧
      h2 1 = some ⟨[65], 2⟩ :=
  blob_clone_preserves_content sampleHeap ⟨1⟩ ⟨[65], 1⟩ rfl

/-- C10: `Metadata::is_parameter_location_used` returns `None` exactly
when the native status is negative and `Some used` — with `used` the value
of the native out-parameter — exactly when the status is non-negative;
being an `Option`, a native failure is an absent value, not one of the two
`Error` kinds. -/
theorem is_parameter_location_used_optional (env : NativeEnv) (m : Metadata)
    (category : Int) (space register : Nat) :
    (Metadata.is_parameter_location_used env m category space register = none ↔
      (env.isParameterLocationUsed m.raw category space register).1 < 0) ∧
    (Metadata.is_parameter_location_used env m category space register =
        some (env.isParameterLocationUsed m.raw category space register).2 ↔
      0 ≤ (env.isParameterLocationUsed m.raw category space register).1) := by
  unfold Metadata.is_parameter_location_used succeeded
  rcases lt_or_le (env.isParameterLocationUsed m.raw category space register).1 0
    with hlt | hle
  · simp [hlt, not_le.mpr hlt, decide_eq_true_eq]
  · simp [hle, not_lt.mpr hle, decide_eq_true_eq]

end SlangRs
